import Mathlib

/-!
# Session caching of the brand-store client (service/store/store.go)

A shallow embedding of `NewStore`, `SnapStore.LoginUser` and `SnapStore.Macaroon`.

* A Go `map[string]string` is either nil or allocated; an allocated map is an
  association list read through `lookup` (the first binding of a key is its value).
* A Go `error` result is `Option Err`: `none` is the nil error.
* The datastore behind the `datastore.Datastore` interface is a state of type `σ`,
  passed explicitly; `SettingsGet` reads it, `SettingsPut` may replace it.
* The functions that `store.go` calls but does not define (the settings store, the
  credential exchange `LoginUser`, `AuthorizationHeader`, `readHeaders`,
  `json.Marshal`, `time.Time.String`) are the fields of `Collaborators`; every
  theorem holds for all of them.
-/

namespace Store

/-- A non-nil Go `error` value. -/
abbrev Err := String

deriving instance DecidableEq for Except

/-- An allocated `map[string]string`. -/
abbrev Entries := List (String × String)

/-- Go `m[k]` with the comma-ok form: the value bound to `k`, if any. -/
def lookup : Entries → String → Option String
  | [], _ => none
  | (k', v) :: rest, k => if k' = k then some v else lookup rest k

/-- Go `delete(m, k)` on an allocated map. -/
def delete (m : Entries) (k : String) : Entries :=
  m.filter (fun p => decide (p.1 ≠ k))

/-- Go `m[k] = v` on an allocated map. -/
def assign (m : Entries) (k v : String) : Entries :=
  (k, v) :: delete m k

/-- A value of type `map[string]string`: `none` is the nil map. -/
abbrev HeaderMap := Option Entries

/-- The record `SettingsGet` returns; `τ` is the type of its two timestamps. -/
structure Settings (τ : Type) where
  Data : String
  Created : τ
  Modified : τ
  deriving DecidableEq, Repr

/-- What `store.go` calls and does not define. `σ` is the datastore state,
`τ` the timestamp type, `μ` and `δ` the types of the two tokens of the exchange. -/
structure Collaborators (σ τ μ δ : Type) where
  /-- The method `Datastore.SettingsGet(namespace, key)`. -/
  SettingsGet : σ → String → String → Except Err (Settings τ)
  /-- The method `Datastore.SettingsPut(namespace, key, data)`: the error result (the first
  result is discarded by the caller) and the datastore afterwards. -/
  SettingsPut : σ → String → String → String → Option Err × σ
  /-- The package-level `LoginUser(email, password, otp, acls)`. -/
  LoginUser : String → String → String → List String → Except Err (μ × δ)
  /-- The function `AuthorizationHeader(macaroon, discharge)`. -/
  AuthorizationHeader : μ → δ → Except Err String
  /-- The function `readHeaders(data)`. -/
  readHeaders : String → Except Err HeaderMap
  /-- The function `json.Marshal` on a `map[string]string`. -/
  jsonMarshal : HeaderMap → Except Err String
  /-- The `String()` method of a timestamp. -/
  timeString : τ → String

/-- The struct `SnapStore`; `Datastore` holds the current state of the datastore. -/
structure SnapStore (σ : Type) where
  Datastore : σ
  headers : HeaderMap
  deriving DecidableEq, Repr

/-- The function `NewStore(ds)`. -/
def NewStore {σ τ μ δ : Type} (env : Collaborators σ τ μ δ) (ds : σ) : SnapStore σ :=
  match env.SettingsGet ds "store" "headers" with
  | .error _ => ⟨ds, none⟩
  | .ok cfg =>
    match env.readHeaders cfg.Data with
    | .error _ => ⟨ds, none⟩
    | .ok headers => ⟨ds, headers⟩

/-- The map literal that `SnapStore.LoginUser` assigns to `sto.headers`. -/
def loginHeaders (storeID series authHeader : String) : Entries :=
  [ ("Snap-Device-Store", storeID),
    ("Snap-Device-Series", series),
    ("Snap-Device-Channel", "stable"),
    ("Authorization", authHeader),
    ("Content-Type", "application/json"),
    ("Accept", "application/json") ]

/-- A call `SnapStore.LoginUser` makes to one of its collaborators. -/
inductive Call where
  | exchange
  | authorizationHeader
  | marshal
  | settingsPut (ns key data : String)
  deriving DecidableEq, Repr

/-- What a call of `SnapStore.LoginUser` leaves behind: the returned error, the
receiver afterwards, and the collaborator calls made, in order. -/
structure LoginResult (σ : Type) where
  err : Option Err
  sto : SnapStore σ
  calls : List Call
  deriving DecidableEq, Repr

/-- The method `(sto *SnapStore).LoginUser(email, password, otp, storeID, series)`. -/
def SnapStore.LoginUser {σ τ μ δ : Type} (env : Collaborators σ τ μ δ) (sto : SnapStore σ)
    (email password otp storeID series : String) : LoginResult σ :=
  match env.LoginUser email password otp ["package_access"] with
  | .error err => ⟨some err, sto, [.exchange]⟩
  | .ok (macaroon, discharge) =>
    match env.AuthorizationHeader macaroon discharge with
    | .error err => ⟨some err, sto, [.exchange, .authorizationHeader]⟩
    | .ok authHeader =>
      let headers : HeaderMap := some (loginHeaders storeID series authHeader)
      match env.jsonMarshal headers with
      | .error err =>
        ⟨some err, ⟨sto.Datastore, headers⟩, [.exchange, .authorizationHeader, .marshal]⟩
      | .ok data =>
        let r := env.SettingsPut sto.Datastore "store" "headers" data
        ⟨r.1, ⟨r.2, headers⟩,
          [.exchange, .authorizationHeader, .marshal, .settingsPut "store" "headers" data]⟩

/-- How a Go call ends: it returns its results, or it panics. -/
inductive Outcome (α : Type) where
  | returned (a : α)
  | panicked
  deriving DecidableEq, Repr

/-- The method `(sto *SnapStore).Macaroon()`: the pair of results. Assigning into a nil map
(a payload `readHeaders` accepts with a nil map and a nil error) panics. -/
def SnapStore.Macaroon {σ τ μ δ : Type} (env : Collaborators σ τ μ δ) (sto : SnapStore σ) :
    Outcome (HeaderMap × Option Err) :=
  match env.SettingsGet sto.Datastore "store" "headers" with
  | .error err => .returned (none, some err)
  | .ok cfg =>
    match env.readHeaders cfg.Data with
    | .error err => .returned (none, some err)
    | .ok none => .panicked
    | .ok (some headers) =>
      let headers := delete headers "Authorization"
      let headers := delete headers "Content-Type"
      let headers := delete headers "Accept"
      let headers := assign headers "Created" (env.timeString cfg.Created)
      let headers := assign headers "Modified" (env.timeString cfg.Modified)
      .returned (some headers, none)

/-- The keys of an allocated map (what `for k := range m` visits). -/
def keys (m : Entries) : List String :=
  m.map Prod.fst

/-- The map of a successful `Macaroon()` call, as `store.go` builds it from the
deserialized payload and the record's two timestamps. -/
def summary (headers : Entries) (created modified : String) : Entries :=
  assign (assign (delete (delete (delete headers "Authorization") "Content-Type") "Accept")
    "Created" created) "Modified" modified

/-- Whether two allocated maps bind the same keys to the same values. -/
def sameMap (a b : Entries) : Bool :=
  (keys a ++ keys b).all (fun k => decide (lookup a k = lookup b k))

/-- Whether the cached record deserializes to the session's in-memory header set
(both the nil map, or both allocated with the same bindings). -/
def cacheAgrees {σ τ μ δ : Type} (env : Collaborators σ τ μ δ) (sto : SnapStore σ) : Bool :=
  match env.SettingsGet sto.Datastore "store" "headers" with
  | .error _ => false
  | .ok cfg =>
    match env.readHeaders cfg.Data with
    | .error _ => false
    | .ok none => sto.headers.isNone
    | .ok (some cached) =>
      match sto.headers with
      | none => false
      | some held => sameMap cached held

/-- A settings store where a get returns the payload of the last successful put. -/
def GetReturnsLastPut {σ τ μ δ : Type} (env : Collaborators σ τ μ δ) : Prop :=
  ∀ s ns key data s', env.SettingsPut s ns key data = (none, s') →
    ∃ cfg, env.SettingsGet s' ns key = .ok cfg ∧ cfg.Data = data

/-- The deserializer `readHeaders` inverts `json.Marshal` on allocated string maps:
it gives back a map with the same bindings. -/
def ReadInvertsMarshal {σ τ μ δ : Type} (env : Collaborators σ τ μ δ) : Prop :=
  ∀ m data, env.jsonMarshal (some m) = .ok data →
    ∃ m', env.readHeaders data = .ok (some m') ∧ ∀ k, lookup m' k = lookup m k

/-- The deserializer `readHeaders` inverts `json.Marshal` on the one allocated map
`m`: from what `json.Marshal` wrote for `m` it gives back a map with the bindings
of `m`. -/
def ReadInvertsMarshalOn {σ τ μ δ : Type} (env : Collaborators σ τ μ δ) (m : Entries) : Prop :=
  ∀ data, env.jsonMarshal (some m) = .ok data →
    ∃ m', env.readHeaders data = .ok (some m') ∧ ∀ k, lookup m' k = lookup m k

/-! ## An in-memory settings store and canned collaborators

Used only to instantiate the theorems below at concrete inputs. -/

/-- An in-memory settings store: its rows, a clock, and whether writes are refused. -/
structure MemStore where
  rows : List ((String × String) × Settings Nat)
  clock : Nat
  readOnly : Bool
  deriving DecidableEq, Repr

/-- Reading a row of the in-memory store. -/
def MemStore.get (s : MemStore) (ns key : String) : Except Err (Settings Nat) :=
  match s.rows.find? (fun r => decide (r.1 = (ns, key))) with
  | some r => .ok r.2
  | none => .error "sql: no rows in result set"

/-- Writing a row of the in-memory store: a row is replaced whole, and keeps the
time of its first creation. -/
def MemStore.put (s : MemStore) (ns key data : String) : Option Err × MemStore :=
  if s.readOnly then (some "attempt to write a readonly database", s)
  else
    let created := match s.get ns key with
      | .ok old => old.Created
      | .error _ => s.clock
    (none, ⟨((ns, key), ⟨data, created, s.clock⟩) ::
      s.rows.filter (fun r => decide (r.1 ≠ (ns, key))), s.clock + 1, false⟩)

/-- The JSON text of the six headers of a login to store1, series 16. -/
def demoJSON : String :=
  "\x7b\"Accept\":\"application/json\",\"Authorization\":\"Macaroon root=M1, discharge=D1\"," ++
  "\"Content-Type\":\"application/json\",\"Snap-Device-Channel\":\"stable\"," ++
  "\"Snap-Device-Series\":\"16\",\"Snap-Device-Store\":\"store1\"\x7d"

/-- The map `demoJSON` decodes to. -/
def demoDecoded : Entries :=
  [ ("Accept", "application/json"),
    ("Authorization", "Macaroon root=M1, discharge=D1"),
    ("Content-Type", "application/json"),
    ("Snap-Device-Channel", "stable"),
    ("Snap-Device-Series", "16"),
    ("Snap-Device-Store", "store1") ]

/-- Canned collaborators over the in-memory store: the exchange accepts one
password, and the JSON codec knows the one header set `demoJSON` stands for. -/
def demo : Collaborators MemStore Nat String String where
  SettingsGet := MemStore.get
  SettingsPut := MemStore.put
  LoginUser := fun _ password _ _ =>
    if password = "pw" then .ok ("M1", "D1") else .error "invalid credentials"
  AuthorizationHeader := fun macaroon discharge =>
    if macaroon = "" then .error "empty macaroon"
    else .ok ("Macaroon root=" ++ macaroon ++ ", discharge=" ++ discharge)
  readHeaders := fun data =>
    if data = demoJSON then .ok (some demoDecoded)
    else if data = "null" then .ok none
    else .error "invalid character"
  jsonMarshal := fun m =>
    if m = some (loginHeaders "store1" "16" "Macaroon root=M1, discharge=D1") then .ok demoJSON
    else if m = none then .ok "null"
    else .error "json: unsupported value"
  timeString := fun t => "t" ++ toString t

/-- A header map holding a "Created" key of its own, a secret and a further key. -/
def oddDecoded : Entries :=
  [("Created", "never"), ("Authorization", "secret"), ("Region", "eu")]

/-- The collaborators `demo`, with a `readHeaders` that decodes the payload x to
`oddDecoded`. -/
def oddDemo : Collaborators MemStore Nat String String where
  SettingsGet := demo.SettingsGet
  SettingsPut := demo.SettingsPut
  LoginUser := demo.LoginUser
  AuthorizationHeader := demo.AuthorizationHeader
  readHeaders := fun data => if data = "x" then .ok (some oddDecoded) else demo.readHeaders data
  jsonMarshal := demo.jsonMarshal
  timeString := demo.timeString

/-- An in-memory store whose cached record has the payload x. -/
def oddStore : MemStore := ⟨[(("store", "headers"), ⟨"x", 3, 5⟩)], 7, false⟩

/-- An in-memory store with no rows. -/
def emptyStore : MemStore := ⟨[], 7, false⟩

/-- An in-memory store whose cached record is the header set of `demoJSON`. -/
def cachedStore : MemStore := ⟨[(("store", "headers"), ⟨demoJSON, 3, 5⟩)], 7, false⟩

/-- The store `cachedStore`, refusing writes. -/
def frozenStore : MemStore := ⟨[(("store", "headers"), ⟨demoJSON, 3, 5⟩)], 7, true⟩

/-- An in-memory store whose cached record is the JSON text null. -/
def nullStore : MemStore := ⟨[(("store", "headers"), ⟨"null", 3, 5⟩)], 7, false⟩

/-- An in-memory store whose cached record is not JSON. -/
def corruptStore : MemStore := ⟨[(("store", "headers"), ⟨"oops", 3, 5⟩)], 7, false⟩

/-- The JSON text `json.Marshal` writes for the six headers of a login to the store
whose ID is the one byte 0xFF, series 16: the byte is not valid UTF-8, and is written
as the escape of the replacement character U+FFFD. -/
def lossyJSON : String :=
  "\x7b\"Accept\":\"application/json\",\"Authorization\":\"Macaroon root=M1, discharge=D1\"," ++
  "\"Content-Type\":\"application/json\",\"Snap-Device-Channel\":\"stable\"," ++
  "\"Snap-Device-Series\":\"16\",\"Snap-Device-Store\":\"\\ufffd\"\x7d"

/-- The map `lossyJSON` decodes to: the store ID is the replacement character. -/
def lossyDecoded : Entries :=
  [ ("Accept", "application/json"),
    ("Authorization", "Macaroon root=M1, discharge=D1"),
    ("Content-Type", "application/json"),
    ("Snap-Device-Channel", "stable"),
    ("Snap-Device-Series", "16"),
    ("Snap-Device-Store", "\uFFFD") ]

/-- The collaborators `demo`, with the JSON codec of Go on a store ID that is not
valid UTF-8. The store ID is written "\xff" here, one character of code 255 standing
for the Go string of the one byte 0xFF; `json.Marshal` writes `lossyJSON` for its
header set, and `readHeaders` decodes that text to `lossyDecoded`. -/
def lossyDemo : Collaborators MemStore Nat String String where
  SettingsGet := demo.SettingsGet
  SettingsPut := demo.SettingsPut
  LoginUser := demo.LoginUser
  AuthorizationHeader := demo.AuthorizationHeader
  readHeaders := fun data =>
    if data = lossyJSON then .ok (some lossyDecoded) else demo.readHeaders data
  jsonMarshal := fun m =>
    if m = some (loginHeaders "\xff" "16" "Macaroon root=M1, discharge=D1") then .ok lossyJSON
    else demo.jsonMarshal m
  timeString := demo.timeString

/-! ## Maps -/

theorem lookup_delete (m : Entries) (k x : String) :
    lookup (delete m k) x = if x = k then none else lookup m x := by
  induction m with
  | nil => simp [delete, lookup]
  | cons p rest ih =>
    obtain ⟨a, b⟩ := p
    unfold delete at ih ⊢
    by_cases hak : a = k
    · subst hak
      by_cases hx : x = a
      · subst hx
        simpa [List.filter_cons] using ih
      · have hx2 : ¬ a = x := fun h => hx h.symm
        simpa [List.filter_cons, lookup, hx, hx2] using ih
    · by_cases hx : x = k
      · subst hx
        simpa [List.filter_cons, hak, lookup] using ih
      · by_cases hax : a = x
        · simp [List.filter_cons, hak, lookup, hax, hx]
        · simpa [List.filter_cons, hak, lookup, hax, hx] using ih

theorem lookup_assign (m : Entries) (k v x : String) :
    lookup (assign m k v) x = if x = k then some v else lookup m x := by
  by_cases hx : x = k
  · subst hx
    simp [assign, lookup]
  · have hx2 : ¬ k = x := fun h => hx h.symm
    simp [assign, lookup, hx, hx2, lookup_delete]

theorem mem_keys_iff (m : Entries) (k : String) :
    k ∈ keys m ↔ (lookup m k).isSome = true := by
  induction m with
  | nil => simp [keys, lookup]
  | cons p rest ih =>
    obtain ⟨a, b⟩ := p
    by_cases hak : a = k
    · simp [keys, lookup, hak]
    · have hka : ¬ k = a := fun h => hak h.symm
      simpa [keys, lookup, hak, hka] using ih

theorem lookup_summary (h : Entries) (c m x : String) :
    lookup (summary h c m) x =
      if x = "Modified" then some m
      else if x = "Created" then some c
      else if x = "Accept" then none
      else if x = "Content-Type" then none
      else if x = "Authorization" then none
      else lookup h x := by
  simp only [summary, lookup_assign, lookup_delete]

theorem sameMap_iff (a b : Entries) :
    sameMap a b = true ↔ ∀ k, lookup a k = lookup b k := by
  constructor
  · intro h k
    simp only [sameMap, List.all_eq_true, List.mem_append, decide_eq_true_eq] at h
    by_cases hk : k ∈ keys a ∨ k ∈ keys b
    · exact h k hk
    · simp only [not_or, mem_keys_iff, Bool.not_eq_true, Option.not_isSome,
        Option.isNone_iff_eq_none] at hk
      rw [hk.1, hk.2]
  · intro h
    simp only [sameMap, List.all_eq_true, decide_eq_true_eq]
    intro k _
    exact h k

theorem demo_get_returns_last_put : GetReturnsLastPut demo := by
  intro s ns key data s' hput
  simp only [demo, MemStore.put] at hput
  split at hput
  · simp at hput
  · simp only [Prod.mk.injEq, true_and] at hput
    subst hput
    simp [demo, MemStore.get, List.find?]

set_option maxRecDepth 100000 in
theorem demo_read_inverts_marshal : ReadInvertsMarshal demo := by
  intro m data hm
  simp only [demo] at hm
  split at hm
  · next heq =>
    simp only [Option.some.injEq] at heq
    simp only [Except.ok.injEq] at hm
    subst heq
    subst hm
    refine ⟨demoDecoded, by decide, ?_⟩
    exact (sameMap_iff _ _).1 (by decide)
  · simp at hm

/-! ## The four ways through `SnapStore.LoginUser` -/

section Login

variable {σ τ μ δ : Type} (env : Collaborators σ τ μ δ) (sto : SnapStore σ)
variable (email password otp storeID series : String)

theorem LoginUser_exchange_error (e : Err)
    (h1 : env.LoginUser email password otp ["package_access"] = .error e) :
    sto.LoginUser env email password otp storeID series = ⟨some e, sto, [.exchange]⟩ := by
  simp [SnapStore.LoginUser, h1]

theorem LoginUser_header_error (mac : μ) (dis : δ) (e : Err)
    (h1 : env.LoginUser email password otp ["package_access"] = .ok (mac, dis))
    (h2 : env.AuthorizationHeader mac dis = .error e) :
    sto.LoginUser env email password otp storeID series =
      ⟨some e, sto, [.exchange, .authorizationHeader]⟩ := by
  simp [SnapStore.LoginUser, h1, h2]

theorem LoginUser_marshal_error (mac : μ) (dis : δ) (auth : String) (e : Err)
    (h1 : env.LoginUser email password otp ["package_access"] = .ok (mac, dis))
    (h2 : env.AuthorizationHeader mac dis = .ok auth)
    (h3 : env.jsonMarshal (some (loginHeaders storeID series auth)) = .error e) :
    sto.LoginUser env email password otp storeID series =
      ⟨some e, ⟨sto.Datastore, some (loginHeaders storeID series auth)⟩,
        [.exchange, .authorizationHeader, .marshal]⟩ := by
  simp [SnapStore.LoginUser, h1, h2, h3]

theorem LoginUser_put (mac : μ) (dis : δ) (auth data : String)
    (h1 : env.LoginUser email password otp ["package_access"] = .ok (mac, dis))
    (h2 : env.AuthorizationHeader mac dis = .ok auth)
    (h3 : env.jsonMarshal (some (loginHeaders storeID series auth)) = .ok data) :
    sto.LoginUser env email password otp storeID series =
      ⟨(env.SettingsPut sto.Datastore "store" "headers" data).1,
        ⟨(env.SettingsPut sto.Datastore "store" "headers" data).2,
          some (loginHeaders storeID series auth)⟩,
        [.exchange, .authorizationHeader, .marshal, .settingsPut "store" "headers" data]⟩ := by
  simp [SnapStore.LoginUser, h1, h2, h3]

/-- A login that returns the nil error went through all four steps. -/
theorem LoginUser_ok_inv
    (hok : (sto.LoginUser env email password otp storeID series).err = none) :
    ∃ (mac : μ) (dis : δ) (auth data : String),
      env.LoginUser email password otp ["package_access"] = .ok (mac, dis) ∧
      env.AuthorizationHeader mac dis = .ok auth ∧
      env.jsonMarshal (some (loginHeaders storeID series auth)) = .ok data ∧
      (env.SettingsPut sto.Datastore "store" "headers" data).1 = none := by
  cases h1 : env.LoginUser email password otp ["package_access"] with
  | error e =>
    rw [LoginUser_exchange_error env sto email password otp storeID series e h1] at hok
    simp at hok
  | ok p =>
    obtain ⟨mac, dis⟩ := p
    cases h2 : env.AuthorizationHeader mac dis with
    | error e =>
      rw [LoginUser_header_error env sto email password otp storeID series mac dis e h1 h2] at hok
      simp at hok
    | ok auth =>
      cases h3 : env.jsonMarshal (some (loginHeaders storeID series auth)) with
      | error e =>
        rw [LoginUser_marshal_error env sto email password otp storeID series mac dis auth e
          h1 h2 h3] at hok
        simp at hok
      | ok data =>
        rw [LoginUser_put env sto email password otp storeID series mac dis auth data
          h1 h2 h3] at hok
        exact ⟨mac, dis, auth, data, rfl, h2, h3, hok⟩

end Login

/-! ## The two ways through `SnapStore.Macaroon` that return -/

section Read

variable {σ τ μ δ : Type} (env : Collaborators σ τ μ δ) (sto : SnapStore σ)

theorem Macaroon_ok (cfg : Settings τ) (h : Entries)
    (hget : env.SettingsGet sto.Datastore "store" "headers" = .ok cfg)
    (hread : env.readHeaders cfg.Data = .ok (some h)) :
    sto.Macaroon env = .returned
      (some (summary h (env.timeString cfg.Created) (env.timeString cfg.Modified)), none) := by
  simp [SnapStore.Macaroon, hget, hread, summary]

theorem Macaroon_get_error (e : Err)
    (hget : env.SettingsGet sto.Datastore "store" "headers" = .error e) :
    sto.Macaroon env = .returned (none, some e) := by
  simp [SnapStore.Macaroon, hget]

theorem Macaroon_read_error (cfg : Settings τ) (e : Err)
    (hget : env.SettingsGet sto.Datastore "store" "headers" = .ok cfg)
    (hread : env.readHeaders cfg.Data = .error e) :
    sto.Macaroon env = .returned (none, some e) := by
  simp [SnapStore.Macaroon, hget, hread]

theorem Macaroon_nil_map (cfg : Settings τ)
    (hget : env.SettingsGet sto.Datastore "store" "headers" = .ok cfg)
    (hread : env.readHeaders cfg.Data = .ok none) :
    sto.Macaroon env = .panicked := by
  simp [SnapStore.Macaroon, hget, hread]

end Read

/-! ## The redacted summary -/

/-- C1: for every cached record whose payload deserializes to a header map, whatever
that map holds, `Macaroon()` returns the nil error and a map among whose keys there
is no "Authorization", no "Content-Type" and no "Accept". -/
theorem Macaroon_strips_authorization {σ τ μ δ : Type} (env : Collaborators σ τ μ δ)
    (sto : SnapStore σ) (cfg : Settings τ) (h : Entries)
    (hget : env.SettingsGet sto.Datastore "store" "headers" = .ok cfg)
    (hread : env.readHeaders cfg.Data = .ok (some h)) :
    ∃ m, sto.Macaroon env = .returned (some m, none) ∧
      "Authorization" ∉ keys m ∧ "Content-Type" ∉ keys m ∧ "Accept" ∉ keys m := by
  refine ⟨_, Macaroon_ok env sto cfg h hget hread, ?_, ?_, ?_⟩ <;>
    simp [mem_keys_iff, lookup_summary]

set_option maxRecDepth 100000 in
theorem Macaroon_strips_authorization_witness :
    demo.SettingsGet cachedStore "store" "headers" = .ok ⟨demoJSON, 3, 5⟩ ∧
    demo.readHeaders demoJSON = .ok (some demoDecoded) ∧
    ∃ m, SnapStore.Macaroon demo ⟨cachedStore, none⟩ = .returned (some m, none) ∧
      "Authorization" ∉ keys m ∧ "Content-Type" ∉ keys m ∧ "Accept" ∉ keys m :=
  ⟨by decide, by decide,
    Macaroon_strips_authorization demo ⟨cachedStore, none⟩ ⟨demoJSON, 3, 5⟩ demoDecoded
      (by decide) (by decide)⟩

/-- C7: for every cached record whose payload deserializes to a map `h`, the map
`Macaroon()` returns binds "Created" and "Modified" to the string forms of the
record's own two timestamps, whatever `h` binds them to; binds none of
"Authorization", "Content-Type", "Accept"; and on every other key is `h`: the same
value where `h` has the key, no binding where `h` has none. -/
theorem Macaroon_summary_contents {σ τ μ δ : Type} (env : Collaborators σ τ μ δ)
    (sto : SnapStore σ) (cfg : Settings τ) (h : Entries)
    (hget : env.SettingsGet sto.Datastore "store" "headers" = .ok cfg)
    (hread : env.readHeaders cfg.Data = .ok (some h)) :
    ∃ m, sto.Macaroon env = .returned (some m, none) ∧
      lookup m "Created" = some (env.timeString cfg.Created) ∧
      lookup m "Modified" = some (env.timeString cfg.Modified) ∧
      (∀ k, k ∈ ["Authorization", "Content-Type", "Accept"] → lookup m k = none) ∧
      (∀ k, k ∉ ["Authorization", "Content-Type", "Accept", "Created", "Modified"] →
        lookup m k = lookup h k) := by
  refine ⟨_, Macaroon_ok env sto cfg h hget hread, ?_, ?_, ?_, ?_⟩
  · simp [lookup_summary]
  · simp [lookup_summary]
  · intro k hk
    simp only [List.mem_cons, List.mem_singleton, List.not_mem_nil, or_false] at hk
    rcases hk with rfl | rfl | rfl <;> simp [lookup_summary]
  · intro k hk
    simp only [List.mem_cons, List.mem_singleton, List.not_mem_nil, or_false, not_or] at hk
    obtain ⟨h1, h2, h3, h4, h5⟩ := hk
    simp [lookup_summary, h1, h2, h3, h4, h5]

set_option maxRecDepth 100000 in
theorem Macaroon_summary_contents_witness :
    oddDemo.SettingsGet oddStore "store" "headers" = .ok ⟨"x", 3, 5⟩ ∧
    oddDemo.readHeaders "x" = .ok (some oddDecoded) ∧
    ∃ m, SnapStore.Macaroon oddDemo ⟨oddStore, none⟩ = .returned (some m, none) ∧
      lookup m "Created" = some "t3" ∧
      lookup m "Modified" = some "t5" ∧
      (∀ k, k ∈ ["Authorization", "Content-Type", "Accept"] → lookup m k = none) ∧
      (∀ k, k ∉ ["Authorization", "Content-Type", "Accept", "Created", "Modified"] →
        lookup m k = lookup oddDecoded k) :=
  ⟨by decide, by decide,
    Macaroon_summary_contents oddDemo ⟨oddStore, none⟩ ⟨"x", 3, 5⟩ oddDecoded
      (by decide) (by decide)⟩

/-- The error returns of `Macaroon()`: it returns a non-nil error exactly when
`SettingsGet` fails or `readHeaders` fails on the payload; in the first case the error is the one
`SettingsGet` gave, in the second the one `readHeaders` gave, and in both the map
returned with it is nil. -/
theorem Macaroon_error_iff {σ τ μ δ : Type} (env : Collaborators σ τ μ δ)
    (sto : SnapStore σ) :
    ((∃ m e, sto.Macaroon env = .returned (m, some e)) ↔
      ((∃ e, env.SettingsGet sto.Datastore "store" "headers" = .error e) ∨
       (∃ cfg e, env.SettingsGet sto.Datastore "store" "headers" = .ok cfg ∧
          env.readHeaders cfg.Data = .error e))) ∧
    (∀ e, env.SettingsGet sto.Datastore "store" "headers" = .error e →
      sto.Macaroon env = .returned (none, some e)) ∧
    (∀ cfg e, env.SettingsGet sto.Datastore "store" "headers" = .ok cfg →
      env.readHeaders cfg.Data = .error e → sto.Macaroon env = .returned (none, some e)) ∧
    (∀ m e, sto.Macaroon env = .returned (m, some e) → m = none) := by
  have key : ∀ m e, sto.Macaroon env = .returned (m, some e) →
      m = none ∧ ((∃ e, env.SettingsGet sto.Datastore "store" "headers" = .error e) ∨
       (∃ cfg e, env.SettingsGet sto.Datastore "store" "headers" = .ok cfg ∧
          env.readHeaders cfg.Data = .error e)) := by
    intro m e hm
    cases hget : env.SettingsGet sto.Datastore "store" "headers" with
    | error e1 =>
      rw [Macaroon_get_error env sto e1 hget] at hm
      simp only [Outcome.returned.injEq, Prod.mk.injEq] at hm
      exact ⟨hm.1.symm, Or.inl ⟨e1, rfl⟩⟩
    | ok cfg =>
      cases hread : env.readHeaders cfg.Data with
      | error e1 =>
        rw [Macaroon_read_error env sto cfg e1 hget hread] at hm
        simp only [Outcome.returned.injEq, Prod.mk.injEq] at hm
        exact ⟨hm.1.symm, Or.inr ⟨cfg, e1, rfl, hread⟩⟩
      | ok hm0 =>
        cases hm0 with
        | none =>
          rw [Macaroon_nil_map env sto cfg hget hread] at hm
          cases hm
        | some h =>
          rw [Macaroon_ok env sto cfg h hget hread] at hm
          simp at hm
  refine ⟨⟨?_, ?_⟩, ?_, ?_, ?_⟩
  · rintro ⟨m, e, hm⟩
    exact (key m e hm).2
  · rintro (⟨e, he⟩ | ⟨cfg, e, hc, he⟩)
    · exact ⟨none, e, Macaroon_get_error env sto e he⟩
    · exact ⟨none, e, Macaroon_read_error env sto cfg e hc he⟩
  · intro e he
    exact Macaroon_get_error env sto e he
  · intro cfg e hc he
    exact Macaroon_read_error env sto cfg e hc he
  · intro m e hm
    exact (key m e hm).1

/-! ## Bootstrapping -/

/-- C3: `NewStore` returns a session for every datastore, and the session holds that
datastore. Its header set is nil when `SettingsGet` fails and when `readHeaders`
fails on the payload; when both succeed it is the map `readHeaders` returned. -/
theorem NewStore_never_fails {σ τ μ δ : Type} (env : Collaborators σ τ μ δ) (ds : σ) :
    (NewStore env ds).Datastore = ds ∧
    (∀ e, env.SettingsGet ds "store" "headers" = .error e → (NewStore env ds).headers = none) ∧
    (∀ cfg e, env.SettingsGet ds "store" "headers" = .ok cfg →
      env.readHeaders cfg.Data = .error e → (NewStore env ds).headers = none) ∧
    (∀ cfg h, env.SettingsGet ds "store" "headers" = .ok cfg →
      env.readHeaders cfg.Data = .ok h → (NewStore env ds).headers = h) := by
  refine ⟨?_, ?_, ?_, ?_⟩
  · unfold NewStore
    split
    · rfl
    · split <;> rfl
  · intro e he
    simp [NewStore, he]
  · intro cfg e hc he
    simp [NewStore, hc, he]
  · intro cfg h hc hh
    simp [NewStore, hc, hh]

/-! ## Login -/

/-- C2: when the credential exchange fails, or the exchange succeeds and
`AuthorizationHeader` fails, `SnapStore.LoginUser` returns a non-nil error, makes no
`SettingsPut` call, and leaves the session as it was: the same datastore (so the same
answer of `SettingsGet` for the cached record) and the same in-memory header set. -/
theorem LoginUser_failed_exchange_leaves_session {σ τ μ δ : Type}
    (env : Collaborators σ τ μ δ) (sto : SnapStore σ)
    (email password otp storeID series : String)
    (hfail : (∃ e, env.LoginUser email password otp ["package_access"] = .error e) ∨
      (∃ mac dis e, env.LoginUser email password otp ["package_access"] = .ok (mac, dis) ∧
        env.AuthorizationHeader mac dis = .error e)) :
    (sto.LoginUser env email password otp storeID series).err ≠ none ∧
    (∀ ns key data,
      Call.settingsPut ns key data ∉ (sto.LoginUser env email password otp storeID series).calls) ∧
    (sto.LoginUser env email password otp storeID series).sto = sto ∧
    env.SettingsGet (sto.LoginUser env email password otp storeID series).sto.Datastore
        "store" "headers" = env.SettingsGet sto.Datastore "store" "headers" ∧
    (sto.LoginUser env email password otp storeID series).sto.headers = sto.headers := by
  rcases hfail with ⟨e, h1⟩ | ⟨mac, dis, e, h1, h2⟩
  · rw [LoginUser_exchange_error env sto email password otp storeID series e h1]
    simp
  · rw [LoginUser_header_error env sto email password otp storeID series mac dis e h1 h2]
    simp

set_option maxRecDepth 100000 in
theorem LoginUser_failed_exchange_leaves_session_witness :
    ((∃ e, demo.LoginUser "a@x.com" "wrong" "" ["package_access"] = .error e) ∨
      (∃ mac dis e, demo.LoginUser "a@x.com" "wrong" "" ["package_access"] = .ok (mac, dis) ∧
        demo.AuthorizationHeader mac dis = .error e)) ∧
    (SnapStore.LoginUser demo ⟨cachedStore, some demoDecoded⟩
        "a@x.com" "wrong" "" "store2" "18").err ≠ none ∧
    (∀ ns key data, Call.settingsPut ns key data ∉
      (SnapStore.LoginUser demo ⟨cachedStore, some demoDecoded⟩
        "a@x.com" "wrong" "" "store2" "18").calls) ∧
    (SnapStore.LoginUser demo ⟨cachedStore, some demoDecoded⟩
        "a@x.com" "wrong" "" "store2" "18").sto = ⟨cachedStore, some demoDecoded⟩ ∧
    demo.SettingsGet (SnapStore.LoginUser demo ⟨cachedStore, some demoDecoded⟩
        "a@x.com" "wrong" "" "store2" "18").sto.Datastore "store" "headers" =
      demo.SettingsGet cachedStore "store" "headers" ∧
    (SnapStore.LoginUser demo ⟨cachedStore, some demoDecoded⟩
        "a@x.com" "wrong" "" "store2" "18").sto.headers = some demoDecoded :=
  ⟨Or.inl ⟨"invalid credentials", by decide⟩,
    LoginUser_failed_exchange_leaves_session demo ⟨cachedStore, some demoDecoded⟩
      "a@x.com" "wrong" "" "store2" "18" (Or.inl ⟨"invalid credentials", by decide⟩)⟩

/-- C9: `SnapStore.LoginUser` returns the nil error exactly when the exchange, the
header assembly, the serialization and `SettingsPut` all succeed. Otherwise it
returns the error of the first step that failed, as that step gave it, and the
calls it made stop at that step. -/
theorem LoginUser_returns_first_error {σ τ μ δ : Type}
    (env : Collaborators σ τ μ δ) (sto : SnapStore σ)
    (email password otp storeID series : String) :
    ((sto.LoginUser env email password otp storeID series).err = none ↔
      ∃ mac dis auth data,
        env.LoginUser email password otp ["package_access"] = .ok (mac, dis) ∧
        env.AuthorizationHeader mac dis = .ok auth ∧
        env.jsonMarshal (some (loginHeaders storeID series auth)) = .ok data ∧
        (env.SettingsPut sto.Datastore "store" "headers" data).1 = none) ∧
    (∀ e, env.LoginUser email password otp ["package_access"] = .error e →
      (sto.LoginUser env email password otp storeID series).err = some e ∧
      (sto.LoginUser env email password otp storeID series).calls = [.exchange]) ∧
    (∀ mac dis e, env.LoginUser email password otp ["package_access"] = .ok (mac, dis) →
      env.AuthorizationHeader mac dis = .error e →
      (sto.LoginUser env email password otp storeID series).err = some e ∧
      (sto.LoginUser env email password otp storeID series).calls =
        [.exchange, .authorizationHeader]) ∧
    (∀ mac dis auth e, env.LoginUser email password otp ["package_access"] = .ok (mac, dis) →
      env.AuthorizationHeader mac dis = .ok auth →
      env.jsonMarshal (some (loginHeaders storeID series auth)) = .error e →
      (sto.LoginUser env email password otp storeID series).err = some e ∧
      (sto.LoginUser env email password otp storeID series).calls =
        [.exchange, .authorizationHeader, .marshal] ∧
      (sto.LoginUser env email password otp storeID series).sto.Datastore = sto.Datastore) ∧
    (∀ mac dis auth data e,
      env.LoginUser email password otp ["package_access"] = .ok (mac, dis) →
      env.AuthorizationHeader mac dis = .ok auth →
      env.jsonMarshal (some (loginHeaders storeID series auth)) = .ok data →
      (env.SettingsPut sto.Datastore "store" "headers" data).1 = some e →
      (sto.LoginUser env email password otp storeID series).err = some e ∧
      (sto.LoginUser env email password otp storeID series).calls =
        [.exchange, .authorizationHeader, .marshal, .settingsPut "store" "headers" data]) := by
  refine ⟨⟨LoginUser_ok_inv env sto email password otp storeID series, ?_⟩, ?_, ?_, ?_, ?_⟩
  · rintro ⟨mac, dis, auth, data, h1, h2, h3, h4⟩
    rw [LoginUser_put env sto email password otp storeID series mac dis auth data h1 h2 h3]
    exact h4
  · intro e h1
    rw [LoginUser_exchange_error env sto email password otp storeID series e h1]
    exact ⟨rfl, rfl⟩
  · intro mac dis e h1 h2
    rw [LoginUser_header_error env sto email password otp storeID series mac dis e h1 h2]
    exact ⟨rfl, rfl⟩
  · intro mac dis auth e h1 h2 h3
    rw [LoginUser_marshal_error env sto email password otp storeID series mac dis auth e h1 h2 h3]
    exact ⟨rfl, rfl, rfl⟩
  · intro mac dis auth data e h1 h2 h3 h4
    rw [LoginUser_put env sto email password otp storeID series mac dis auth data h1 h2 h3]
    exact ⟨h4, rfl⟩

/-- C5: a `SnapStore.LoginUser` that returns the nil error made exactly one
`SettingsPut` call, under "store"/"headers", with the serialization of the map
`loginHeaders storeID series auth`, where `auth` is what `AuthorizationHeader` made of
the two tokens the exchange returned. That map has exactly the six keys
"Snap-Device-Store", "Snap-Device-Series", "Snap-Device-Channel", "Authorization",
"Content-Type", "Accept", bound to `storeID`, `series`, "stable", `auth`,
"application/json", "application/json"; it is also the session's header set
afterwards. Neither the session's previous header set nor the previous record enters
the map or the payload. -/
theorem LoginUser_writes_six_headers {σ τ μ δ : Type}
    (env : Collaborators σ τ μ δ) (sto : SnapStore σ)
    (email password otp storeID series : String)
    (hok : (sto.LoginUser env email password otp storeID series).err = none) :
    ∃ mac dis auth data,
      env.LoginUser email password otp ["package_access"] = .ok (mac, dis) ∧
      env.AuthorizationHeader mac dis = .ok auth ∧
      env.jsonMarshal (some (loginHeaders storeID series auth)) = .ok data ∧
      (sto.LoginUser env email password otp storeID series).calls =
        [.exchange, .authorizationHeader, .marshal, .settingsPut "store" "headers" data] ∧
      (sto.LoginUser env email password otp storeID series).sto.Datastore =
        (env.SettingsPut sto.Datastore "store" "headers" data).2 ∧
      (sto.LoginUser env email password otp storeID series).sto.headers =
        some (loginHeaders storeID series auth) ∧
      keys (loginHeaders storeID series auth) =
        ["Snap-Device-Store", "Snap-Device-Series", "Snap-Device-Channel",
          "Authorization", "Content-Type", "Accept"] ∧
      (keys (loginHeaders storeID series auth)).Nodup ∧
      lookup (loginHeaders storeID series auth) "Snap-Device-Store" = some storeID ∧
      lookup (loginHeaders storeID series auth) "Snap-Device-Series" = some series ∧
      lookup (loginHeaders storeID series auth) "Snap-Device-Channel" = some "stable" ∧
      lookup (loginHeaders storeID series auth) "Authorization" = some auth ∧
      lookup (loginHeaders storeID series auth) "Content-Type" = some "application/json" ∧
      lookup (loginHeaders storeID series auth) "Accept" = some "application/json" ∧
      ∀ other : SnapStore σ,
        (other.LoginUser env email password otp storeID series).calls =
          (sto.LoginUser env email password otp storeID series).calls ∧
        (other.LoginUser env email password otp storeID series).sto.headers =
          (sto.LoginUser env email password otp storeID series).sto.headers := by
  obtain ⟨mac, dis, auth, data, h1, h2, h3, -⟩ :=
    LoginUser_ok_inv env sto email password otp storeID series hok
  refine ⟨mac, dis, auth, data, h1, h2, h3, ?_, ?_, ?_, rfl, ?_, ?_, ?_, ?_, ?_, ?_, ?_, ?_⟩
  · rw [LoginUser_put env sto email password otp storeID series mac dis auth data h1 h2 h3]
  · rw [LoginUser_put env sto email password otp storeID series mac dis auth data h1 h2 h3]
  · rw [LoginUser_put env sto email password otp storeID series mac dis auth data h1 h2 h3]
  rotate_right
  · intro other
    rw [LoginUser_put env sto email password otp storeID series mac dis auth data h1 h2 h3,
      LoginUser_put env other email password otp storeID series mac dis auth data h1 h2 h3]
    exact ⟨rfl, rfl⟩
  · simp only [keys, loginHeaders, List.map]
    decide
  all_goals simp [lookup, loginHeaders]

set_option maxRecDepth 100000 in
theorem LoginUser_writes_six_headers_witness :
    (SnapStore.LoginUser demo ⟨corruptStore, some oddDecoded⟩
      "a@x.com" "pw" "" "store1" "16").err = none ∧
    ∃ mac dis auth data,
      demo.LoginUser "a@x.com" "pw" "" ["package_access"] = .ok (mac, dis) ∧
      demo.AuthorizationHeader mac dis = .ok auth ∧
      demo.jsonMarshal (some (loginHeaders "store1" "16" auth)) = .ok data ∧
      (SnapStore.LoginUser demo ⟨corruptStore, some oddDecoded⟩
        "a@x.com" "pw" "" "store1" "16").calls =
        [.exchange, .authorizationHeader, .marshal, .settingsPut "store" "headers" data] ∧
      (SnapStore.LoginUser demo ⟨corruptStore, some oddDecoded⟩
        "a@x.com" "pw" "" "store1" "16").sto.Datastore =
        (demo.SettingsPut corruptStore "store" "headers" data).2 ∧
      (SnapStore.LoginUser demo ⟨corruptStore, some oddDecoded⟩
        "a@x.com" "pw" "" "store1" "16").sto.headers = some (loginHeaders "store1" "16" auth) ∧
      keys (loginHeaders "store1" "16" auth) =
        ["Snap-Device-Store", "Snap-Device-Series", "Snap-Device-Channel",
          "Authorization", "Content-Type", "Accept"] ∧
      (keys (loginHeaders "store1" "16" auth)).Nodup ∧
      lookup (loginHeaders "store1" "16" auth) "Snap-Device-Store" = some "store1" ∧
      lookup (loginHeaders "store1" "16" auth) "Snap-Device-Series" = some "16" ∧
      lookup (loginHeaders "store1" "16" auth) "Snap-Device-Channel" = some "stable" ∧
      lookup (loginHeaders "store1" "16" auth) "Authorization" = some auth ∧
      lookup (loginHeaders "store1" "16" auth) "Content-Type" = some "application/json" ∧
      lookup (loginHeaders "store1" "16" auth) "Accept" = some "application/json" ∧
      ∀ other : SnapStore MemStore,
        (other.LoginUser demo "a@x.com" "pw" "" "store1" "16").calls =
          (SnapStore.LoginUser demo ⟨corruptStore, some oddDecoded⟩
            "a@x.com" "pw" "" "store1" "16").calls ∧
        (other.LoginUser demo "a@x.com" "pw" "" "store1" "16").sto.headers =
          (SnapStore.LoginUser demo ⟨corruptStore, some oddDecoded⟩
            "a@x.com" "pw" "" "store1" "16").sto.headers :=
  ⟨by decide,
    LoginUser_writes_six_headers demo ⟨corruptStore, some oddDecoded⟩
      "a@x.com" "pw" "" "store1" "16" (by decide)⟩

/-! ## Login, then read back -/

/-- After a login that returned the nil error, over a settings store whose get
returns the last put and a deserializer that inverts the serializer on the header
set the session now holds, the cached record reads back as a map with the bindings
of the six login headers. -/
theorem login_record_reads_back {σ τ μ δ : Type}
    (env : Collaborators σ τ μ δ) (sto : SnapStore σ)
    (email password otp storeID series : String)
    (hok : (sto.LoginUser env email password otp storeID series).err = none)
    (hstore : GetReturnsLastPut env)
    (hcodec : ∀ held, (sto.LoginUser env email password otp storeID series).sto.headers =
      some held → ReadInvertsMarshalOn env held) :
    ∃ auth cfg cached,
      (sto.LoginUser env email password otp storeID series).sto.headers =
        some (loginHeaders storeID series auth) ∧
      env.SettingsGet (sto.LoginUser env email password otp storeID series).sto.Datastore
        "store" "headers" = .ok cfg ∧
      env.readHeaders cfg.Data = .ok (some cached) ∧
      ∀ k, lookup cached k = lookup (loginHeaders storeID series auth) k := by
  obtain ⟨mac, dis, auth, data, h1, h2, h3, h4⟩ :=
    LoginUser_ok_inv env sto email password otp storeID series hok
  have hput : env.SettingsPut sto.Datastore "store" "headers" data =
      (none, (env.SettingsPut sto.Datastore "store" "headers" data).2) := by
    rw [← h4]
  obtain ⟨cfg, hcfg, hdata⟩ := hstore _ _ _ _ _ hput
  have hheld : (sto.LoginUser env email password otp storeID series).sto.headers =
      some (loginHeaders storeID series auth) := by
    rw [LoginUser_put env sto email password otp storeID series mac dis auth data h1 h2 h3]
  obtain ⟨cached, hread, hsame⟩ := hcodec _ hheld data h3
  refine ⟨auth, cfg, cached, ?_, ?_, ?_, hsame⟩
  · rw [LoginUser_put env sto email password otp storeID series mac dis auth data h1 h2 h3]
  · rw [LoginUser_put env sto email password otp storeID series mac dis auth data h1 h2 h3]
    exact hcfg
  · rw [hdata]
    exact hread

/-- C4: round trip. When `SnapStore.LoginUser` returns the nil error, over a settings
store whose get returns the last put payload and a `readHeaders` that inverts
`json.Marshal`, `NewStore` on the resulting datastore yields a session whose header
set binds every key to the value the header set assembled by the login binds it to,
and binds no other key. -/
theorem login_then_NewStore_round_trip {σ τ μ δ : Type}
    (env : Collaborators σ τ μ δ) (sto : SnapStore σ)
    (email password otp storeID series : String)
    (hok : (sto.LoginUser env email password otp storeID series).err = none)
    (hstore : GetReturnsLastPut env) (hcodec : ReadInvertsMarshal env) :
    ∃ assembled restored,
      (sto.LoginUser env email password otp storeID series).sto.headers = some assembled ∧
      (NewStore env (sto.LoginUser env email password otp storeID series).sto.Datastore).headers =
        some restored ∧
      ∀ k, lookup restored k = lookup assembled k := by
  obtain ⟨auth, cfg, cached, hheld, hget, hread, hsame⟩ :=
    login_record_reads_back env sto email password otp storeID series hok hstore
      (fun held _ => hcodec held)
  refine ⟨loginHeaders storeID series auth, cached, hheld, ?_, hsame⟩
  simp [NewStore, hget, hread]

set_option maxRecDepth 100000 in
theorem login_then_NewStore_round_trip_witness :
    (SnapStore.LoginUser demo ⟨emptyStore, none⟩ "a@x.com" "pw" "" "store1" "16").err = none ∧
    GetReturnsLastPut demo ∧ ReadInvertsMarshal demo ∧
    ∃ assembled restored,
      (SnapStore.LoginUser demo ⟨emptyStore, none⟩
        "a@x.com" "pw" "" "store1" "16").sto.headers = some assembled ∧
      (NewStore demo (SnapStore.LoginUser demo ⟨emptyStore, none⟩
        "a@x.com" "pw" "" "store1" "16").sto.Datastore).headers = some restored ∧
      ∀ k, lookup restored k = lookup assembled k :=
  ⟨by decide, demo_get_returns_last_put, demo_read_inverts_marshal,
    login_then_NewStore_round_trip demo ⟨emptyStore, none⟩ "a@x.com" "pw" "" "store1" "16"
      (by decide) demo_get_returns_last_put demo_read_inverts_marshal⟩

/-- C6, as stated, fails: the JSON codec of Go does not give back a store ID that is
not valid UTF-8. A login to the store whose ID is the one byte 0xFF, series 16,
returns the nil error over a settings store whose get returns the last put payload;
`Macaroon()` on the record it wrote returns the nil error and the five keys, but
binds "Snap-Device-Store" to the replacement character U+FFFD, not to the store ID. -/
theorem login_then_Macaroon_loses_store_id :
    (SnapStore.LoginUser lossyDemo ⟨emptyStore, none⟩ "a@x.com" "pw" "" "\xff" "16").err =
      none ∧
    (SnapStore.LoginUser lossyDemo ⟨emptyStore, none⟩ "a@x.com" "pw" "" "\xff" "16").calls =
      [.exchange, .authorizationHeader, .marshal, .settingsPut "store" "headers" lossyJSON] ∧
    lossyDemo.SettingsGet (SnapStore.LoginUser lossyDemo ⟨emptyStore, none⟩
      "a@x.com" "pw" "" "\xff" "16").sto.Datastore "store" "headers" = .ok ⟨lossyJSON, 7, 7⟩ ∧
    SnapStore.Macaroon lossyDemo (SnapStore.LoginUser lossyDemo ⟨emptyStore, none⟩
      "a@x.com" "pw" "" "\xff" "16").sto = .returned (some
        [("Modified", "t7"), ("Created", "t7"), ("Snap-Device-Channel", "stable"),
         ("Snap-Device-Series", "16"), ("Snap-Device-Store", "\uFFFD")], none) ∧
    lookup [("Modified", "t7"), ("Created", "t7"), ("Snap-Device-Channel", "stable"),
        ("Snap-Device-Series", "16"), ("Snap-Device-Store", "\uFFFD")] "Snap-Device-Store" ≠
      some "\xff" := by
  set_option maxRecDepth 100000 in decide

/-- C6, amended: when `SnapStore.LoginUser(email, password, otp, storeID, series)`
returns the nil error, over a settings store whose get returns the last put payload,
and `readHeaders` inverts `json.Marshal` on the header set the login assembled,
`Macaroon()` on the resulting session returns the nil error and a map whose keys are
exactly "Snap-Device-Store", "Snap-Device-Series", "Snap-Device-Channel", "Created"
and "Modified", the first three bound to `storeID`, `series` and "stable". -/
theorem login_then_Macaroon_summary {σ τ μ δ : Type}
    (env : Collaborators σ τ μ δ) (sto : SnapStore σ)
    (email password otp storeID series : String)
    (hok : (sto.LoginUser env email password otp storeID series).err = none)
    (hstore : GetReturnsLastPut env)
    (hcodec : ∀ held, (sto.LoginUser env email password otp storeID series).sto.headers =
      some held → ReadInvertsMarshalOn env held) :
    ∃ m, (sto.LoginUser env email password otp storeID series).sto.Macaroon env =
        .returned (some m, none) ∧
      (∀ k, k ∈ keys m ↔ k ∈ ["Snap-Device-Store", "Snap-Device-Series",
        "Snap-Device-Channel", "Created", "Modified"]) ∧
      lookup m "Snap-Device-Store" = some storeID ∧
      lookup m "Snap-Device-Series" = some series ∧
      lookup m "Snap-Device-Channel" = some "stable" := by
  obtain ⟨auth, cfg, cached, -, hget, hread, hsame⟩ :=
    login_record_reads_back env sto email password otp storeID series hok hstore hcodec
  refine ⟨_, Macaroon_ok env _ cfg cached hget hread, ?_, ?_, ?_, ?_⟩
  · intro k
    rw [mem_keys_iff, lookup_summary, hsame]
    simp only [List.mem_cons, List.mem_singleton, List.not_mem_nil, or_false]
    by_cases h1 : k = "Modified"
    · simp [h1]
    by_cases h2 : k = "Created"
    · simp [h2]
    by_cases h3 : k = "Accept"
    · subst h3
      simp
    by_cases h4 : k = "Content-Type"
    · subst h4
      simp
    by_cases h5 : k = "Authorization"
    · subst h5
      simp
    by_cases h6 : k = "Snap-Device-Store"
    · subst h6
      simp [lookup, loginHeaders]
    by_cases h7 : k = "Snap-Device-Series"
    · subst h7
      simp [lookup, loginHeaders]
    by_cases h8 : k = "Snap-Device-Channel"
    · subst h8
      simp [lookup, loginHeaders]
    have g1 : ¬ "Snap-Device-Store" = k := fun h => h6 h.symm
    have g2 : ¬ "Snap-Device-Series" = k := fun h => h7 h.symm
    have g3 : ¬ "Snap-Device-Channel" = k := fun h => h8 h.symm
    have g4 : ¬ "Authorization" = k := fun h => h5 h.symm
    have g5 : ¬ "Content-Type" = k := fun h => h4 h.symm
    have g6 : ¬ "Accept" = k := fun h => h3 h.symm
    simp [h1, h2, h3, h4, h5, h6, h7, h8, g1, g2, g3, g4, g5, g6, lookup, loginHeaders]
  · rw [lookup_summary, hsame]
    simp [lookup, loginHeaders]
  · rw [lookup_summary, hsame]
    simp [lookup, loginHeaders]
  · rw [lookup_summary, hsame]
    simp [lookup, loginHeaders]

set_option maxRecDepth 100000 in
theorem login_then_Macaroon_summary_witness :
    (SnapStore.LoginUser demo ⟨emptyStore, none⟩ "a@x.com" "pw" "" "store1" "16").err = none ∧
    GetReturnsLastPut demo ∧
    (∀ held, (SnapStore.LoginUser demo ⟨emptyStore, none⟩
        "a@x.com" "pw" "" "store1" "16").sto.headers = some held →
      ReadInvertsMarshalOn demo held) ∧
    ∃ m, SnapStore.Macaroon demo (SnapStore.LoginUser demo ⟨emptyStore, none⟩
        "a@x.com" "pw" "" "store1" "16").sto = .returned (some m, none) ∧
      (∀ k, k ∈ keys m ↔ k ∈ ["Snap-Device-Store", "Snap-Device-Series",
        "Snap-Device-Channel", "Created", "Modified"]) ∧
      lookup m "Snap-Device-Store" = some "store1" ∧
      lookup m "Snap-Device-Series" = some "16" ∧
      lookup m "Snap-Device-Channel" = some "stable" :=
  ⟨by decide, demo_get_returns_last_put, fun held _ => demo_read_inverts_marshal held,
    login_then_Macaroon_summary demo ⟨emptyStore, none⟩ "a@x.com" "pw" "" "store1" "16"
      (by decide) demo_get_returns_last_put (fun held _ => demo_read_inverts_marshal held)⟩

/-! ## A login whose cache write fails -/

/-- C10, as stated, fails: a session bootstrapped from a cached record logs in again
with the same store, series and tokens while the settings store refuses writes. The
exchange, the header assembly and the serialization succeed, `SettingsPut` fails and
its error is returned, the in-memory header set is the newly assembled one, and the
cached record still deserializes to a map with those same bindings: the session and
the cache do not differ. -/
theorem failed_put_session_and_cache_agree :
    demo.LoginUser "a@x.com" "pw" "" ["package_access"] = .ok ("M1", "D1") ∧
    demo.AuthorizationHeader "M1" "D1" = .ok "Macaroon root=M1, discharge=D1" ∧
    demo.jsonMarshal (some (loginHeaders "store1" "16" "Macaroon root=M1, discharge=D1")) =
      .ok demoJSON ∧
    demo.SettingsPut frozenStore "store" "headers" demoJSON =
      (some "attempt to write a readonly database", frozenStore) ∧
    (SnapStore.LoginUser demo (NewStore demo frozenStore)
      "a@x.com" "pw" "" "store1" "16").err = some "attempt to write a readonly database" ∧
    (SnapStore.LoginUser demo (NewStore demo frozenStore)
      "a@x.com" "pw" "" "store1" "16").sto.headers =
      some (loginHeaders "store1" "16" "Macaroon root=M1, discharge=D1") ∧
    cacheAgrees demo (SnapStore.LoginUser demo (NewStore demo frozenStore)
      "a@x.com" "pw" "" "store1" "16").sto = true := by
  set_option maxRecDepth 100000 in decide

/-- C10, amended: when the exchange, the header assembly and the serialization
succeed and `SettingsPut` fails, `SnapStore.LoginUser` returns the error of
`SettingsPut`, and the session's in-memory header set is the newly assembled six-key
set, whatever it was before, over the datastore the failed put left. The session and
the cached record then agree exactly when that datastore holds a record that
deserializes to a map with the bindings of the new set; they differ in particular
whenever no record can be read. -/
theorem LoginUser_replaces_headers_before_put {σ τ μ δ : Type}
    (env : Collaborators σ τ μ δ) (sto : SnapStore σ)
    (email password otp storeID series : String)
    (mac : μ) (dis : δ) (auth data : String) (e : Err)
    (h1 : env.LoginUser email password otp ["package_access"] = .ok (mac, dis))
    (h2 : env.AuthorizationHeader mac dis = .ok auth)
    (h3 : env.jsonMarshal (some (loginHeaders storeID series auth)) = .ok data)
    (h4 : (env.SettingsPut sto.Datastore "store" "headers" data).1 = some e) :
    (sto.LoginUser env email password otp storeID series).err = some e ∧
    (sto.LoginUser env email password otp storeID series).sto.headers =
      some (loginHeaders storeID series auth) ∧
    (sto.LoginUser env email password otp storeID series).sto.Datastore =
      (env.SettingsPut sto.Datastore "store" "headers" data).2 ∧
    (cacheAgrees env (sto.LoginUser env email password otp storeID series).sto = true ↔
      ∃ cfg cached,
        env.SettingsGet (env.SettingsPut sto.Datastore "store" "headers" data).2
          "store" "headers" = .ok cfg ∧
        env.readHeaders cfg.Data = .ok (some cached) ∧
        ∀ k, lookup cached k = lookup (loginHeaders storeID series auth) k) ∧
    (∀ e', env.SettingsGet (env.SettingsPut sto.Datastore "store" "headers" data).2
        "store" "headers" = .error e' →
      cacheAgrees env (sto.LoginUser env email password otp storeID series).sto = false) := by
  rw [LoginUser_put env sto email password otp storeID series mac dis auth data h1 h2 h3]
  refine ⟨h4, rfl, rfl, ?_, ?_⟩
  · simp only [cacheAgrees]
    cases hget : env.SettingsGet (env.SettingsPut sto.Datastore "store" "headers" data).2
        "store" "headers" with
    | error e1 => simp
    | ok cfg =>
      cases hread : env.readHeaders cfg.Data with
      | error e1 => simp [hread]
      | ok hm =>
        cases hm with
        | none => simp [hread]
        | some cached => simp [hread, sameMap_iff]
  · intro e1 hget
    simp [cacheAgrees, hget]

set_option maxRecDepth 100000 in
theorem LoginUser_replaces_headers_before_put_witness :
    demo.LoginUser "a@x.com" "pw" "" ["package_access"] = .ok ("M1", "D1") ∧
    demo.AuthorizationHeader "M1" "D1" = .ok "Macaroon root=M1, discharge=D1" ∧
    demo.jsonMarshal (some (loginHeaders "store1" "16" "Macaroon root=M1, discharge=D1")) =
      .ok demoJSON ∧
    (demo.SettingsPut ⟨[], 7, true⟩ "store" "headers" demoJSON).1 =
      some "attempt to write a readonly database" ∧
    (SnapStore.LoginUser demo ⟨⟨[], 7, true⟩, some oddDecoded⟩
      "a@x.com" "pw" "" "store1" "16").err = some "attempt to write a readonly database" ∧
    (SnapStore.LoginUser demo ⟨⟨[], 7, true⟩, some oddDecoded⟩
      "a@x.com" "pw" "" "store1" "16").sto.headers =
      some (loginHeaders "store1" "16" "Macaroon root=M1, discharge=D1") ∧
    cacheAgrees demo (SnapStore.LoginUser demo ⟨⟨[], 7, true⟩, some oddDecoded⟩
      "a@x.com" "pw" "" "store1" "16").sto = false :=
  ⟨by decide, by decide, by decide, by decide,
    (LoginUser_replaces_headers_before_put demo ⟨⟨[], 7, true⟩, some oddDecoded⟩
      "a@x.com" "pw" "" "store1" "16" "M1" "D1" "Macaroon root=M1, discharge=D1" demoJSON
      "attempt to write a readonly database"
      (by decide) (by decide) (by decide) (by decide)).1,
    (LoginUser_replaces_headers_before_put demo ⟨⟨[], 7, true⟩, some oddDecoded⟩
      "a@x.com" "pw" "" "store1" "16" "M1" "D1" "Macaroon root=M1, discharge=D1" demoJSON
      "attempt to write a readonly database"
      (by decide) (by decide) (by decide) (by decide)).2.1,
    (LoginUser_replaces_headers_before_put demo ⟨⟨[], 7, true⟩, some oddDecoded⟩
      "a@x.com" "pw" "" "store1" "16" "M1" "D1" "Macaroon root=M1, discharge=D1" demoJSON
      "attempt to write a readonly database"
      (by decide) (by decide) (by decide) (by decide)).2.2.2.2
        "sql: no rows in result set" (by decide)⟩

/-! ## The three read paths on concrete stores -/

theorem Macaroon_on_empty_store :
    SnapStore.Macaroon demo ⟨emptyStore, none⟩ =
      .returned (none, some "sql: no rows in result set") := by
  decide

theorem Macaroon_on_corrupt_store :
    SnapStore.Macaroon demo ⟨corruptStore, none⟩ =
      .returned (none, some "invalid character") := by
  decide

/-- C8 fails on the code: a cached record whose payload is the JSON text null is read
by `SettingsGet` without error and accepted by `readHeaders` without error, as the
nil map, so neither cause of failure the claim names holds; yet `Macaroon()` returns
nothing, neither a summary nor an error: it panics on the assignment of "Created"
into the nil map. `NewStore` on the same datastore returns a session. -/
theorem Macaroon_panics_on_null_payload :
    demo.SettingsGet nullStore "store" "headers" = .ok ⟨"null", 3, 5⟩ ∧
    demo.readHeaders "null" = .ok none ∧
    SnapStore.Macaroon demo ⟨nullStore, none⟩ = .panicked ∧
    (∀ r, SnapStore.Macaroon demo ⟨nullStore, none⟩ ≠ .returned r) ∧
    NewStore demo nullStore = ⟨nullStore, none⟩ := by
  refine ⟨by decide, by decide, by decide, ?_, by decide⟩
  intro r hr
  have hp : SnapStore.Macaroon demo ⟨nullStore, none⟩ = .panicked := by decide
  rw [hp] at hr
  cases hr

set_option maxRecDepth 100000 in
theorem Macaroon_on_cached_store :
    SnapStore.Macaroon demo ⟨cachedStore, none⟩ = .returned (some
      [("Modified", "t5"), ("Created", "t3"), ("Snap-Device-Channel", "stable"),
       ("Snap-Device-Series", "16"), ("Snap-Device-Store", "store1")], none) := by
  decide

theorem NewStore_on_corrupt_store : NewStore demo corruptStore = ⟨corruptStore, none⟩ := by
  decide

set_option maxRecDepth 100000 in
theorem NewStore_on_cached_store :
    NewStore demo cachedStore = ⟨cachedStore, some demoDecoded⟩ := by
  decide

end Store
